import Mathlib

set_option smartUnfolding false

/-!
Verification of the output-writer scheduling subsystem of terrainbento
(`terrainbento/output_writers/generic_output_writer.py`).

The scheduler only compares, stores and forwards the float values produced
by the registered times iterator (it performs no float arithmetic), so model
times are embedded as rationals (`ℚ`).  A Python iterator is embedded as the
list of values it has yet to yield; `next(it, None)` pops the head and
signals exhaustion on the empty list.  Python exceptions (`AssertionError`
raised by failing `assert` statements, `RecursionError` raised by the skip
budget) are explicit outcome constructors, and the `warnings.warn` side
effect is an explicit list of emitted skip warnings.
-/

/-- A value produced by the registered times iterator: either a Python float
(embedded as `ℚ`) or any non-float object (the scheduler rejects these with
an `AssertionError`; their identity is irrelevant). -/
inductive PyVal where
  | float (q : ℚ)
  | nonFloat
deriving DecidableEq, Repr

/-- The model clock; the scheduler reads only `model.clock.stop`. -/
structure Clock where
  stop : ℚ
deriving DecidableEq, Repr

/-- The scheduler-relevant state of `GenericOutputWriter`.  The fields are
the instance attributes read or written by `advance_iter`,
`_advance_iter_recursive`, `register_times_iter`, `is_file_registered` and
`register_output_filepath` (`_id`, `_name` and `_output_dir` play no role in
scheduling or the filepath registry and are omitted).  `times_iter = none`
models a writer on which `register_times_iter` has not been called. -/
structure GenericOutputWriter where
  clock : Clock
  save_first_timestep : Bool
  save_last_timestep : Bool
  times_iter : Option (List PyVal)
  next_output_time : Option ℚ
  prev_output_time : Option ℚ
  is_exhausted : Bool
  output_filepaths : List String
deriving DecidableEq, Repr

/-- A Python exception escaping `advance_iter`: a failed `assert`
(usage/programming error) or the `RecursionError` raised when the skip
budget is exhausted. -/
inductive PyError where
  | assertionError (msg : String)
  | recursionError (msg : String)
deriving DecidableEq, Repr

/-- An `OutputIteratorSkipWarning`, carrying the two values interpolated
into `OutputIteratorSkipWarning.get_message(next_time, prev_time)`. -/
structure SkipWarning where
  next_time : ℚ
  prev_time : ℚ
deriving DecidableEq, Repr

/-- Result of a call to `advance_iter`: the returned value, or the Python
exception it raised. -/
inductive AdvOutcome where
  | ok (ret : Option ℚ)
  | err (e : PyError)
deriving DecidableEq, Repr

/-- `GenericOutputWriter.__init__` restricted to the modelled fields
(`times_iter` starts unregistered, both time trackers start `None`,
`_is_exhausted` starts false, the filepath registry starts empty). -/
def newWriter (clock : Clock) (save_first_timestep save_last_timestep : Bool) :
    GenericOutputWriter :=
  { clock := clock
    save_first_timestep := save_first_timestep
    save_last_timestep := save_last_timestep
    times_iter := none
    next_output_time := none
    prev_output_time := none
    is_exhausted := false
    output_filepaths := [] }

/-- `GenericOutputWriter.register_times_iter`: store the iterator. -/
def register_times_iter (w : GenericOutputWriter) (times_iter : List PyVal) :
    GenericOutputWriter :=
  { w with times_iter := some times_iter }

/-- The forced-final-output block of `_advance_iter_recursive`, which appears
verbatim twice in the source (iterator-exhausted case, lines 271-283, and
overshoot case, lines 297-310): if `save_last_timestep` and the previous
output time is `None` or below the stop time, return the stop time,
otherwise return `None`. -/
def forced_final (save_last : Bool) (prev_time : Option ℚ) (stop : ℚ) :
    Option ℚ :=
  if save_last then
    match prev_time with
    | none => some stop
    | some p => if p < stop then some stop else none
  else none

/-- `GenericOutputWriter._advance_iter_recursive`.  Arguments `save_last`,
`prev_time` and `stop` are the attributes that do not change during the
recursion; `save_first` is `self._save_first_timestep` (cleared by the
first-timestep branch), `it` the remaining iterator, `counter` the
`recursion_counter` (5 on the initial call).  Returns the outcome, the new
`_save_first_timestep` flag, the remaining iterator, and the skip warnings
emitted (in order), including those emitted before an exception. -/
def advance_iter_recursive (save_last : Bool) (prev_time : Option ℚ)
    (stop : ℚ) (save_first : Bool) (it : List PyVal) (counter : Nat) :
    AdvOutcome × Bool × List PyVal × List SkipWarning :=
  if save_first then
    -- return 0.0 instead of calling next on the times iterator
    (.ok (some 0), false, it, [])
  else
    match it with
    | [] =>
      -- next(_times_iter, None) returned None: the iterator is exhausted
      (.ok (forced_final save_last prev_time stop), save_first, [], [])
    | .nonFloat :: rest =>
      -- assert isinstance(next_time, float) fails
      (.err (.assertionError
          "The output time iterator needs to generate float values."),
        save_first, rest, [])
    | .float next_time :: rest =>
      if stop < next_time then
        -- next_time > model_stop_time: overshoot
        (.ok (forced_final save_last prev_time stop), save_first, rest, [])
      else
        match prev_time with
        | some p =>
          if next_time ≤ p then
            -- skip branch: prev_time >= next_time
            match counter with
            | Nat.succ c =>
              let warns : List SkipWarning :=
                if p = 0 ∧ next_time = 0 then [] else [⟨next_time, p⟩]
              let r := advance_iter_recursive save_last prev_time stop
                  save_first rest c
              (r.1, r.2.1, r.2.2.1, warns ++ r.2.2.2)
            | 0 =>
              (.err (.recursionError "Too many output times skipped."),
                save_first, rest, [])
          else
            (.ok (some next_time), save_first, rest, [])
        | none =>
          (.ok (some next_time), save_first, rest, [])
termination_by structural counter

/-- The tail of `advance_iter` after the previous-time bookkeeping: run
`_advance_iter_recursive` with a fresh budget of 5, record exhaustion when
it resolves to `None`, and store the resolved time.  On an exception the
mutations already performed (consumed flag, consumed iterator values) stick,
but `_next_output_time` and `_is_exhausted` are not updated (the exception
propagates before lines 218-222 run). -/
def advance_iter_tail (w : GenericOutputWriter) (it : List PyVal) :
    AdvOutcome × GenericOutputWriter × List SkipWarning :=
  match advance_iter_recursive w.save_last_timestep w.prev_output_time
      w.clock.stop w.save_first_timestep it 5 with
  | (.ok t, sf, it2, ws) =>
    (.ok t,
      { w with
        save_first_timestep := sf
        times_iter := some it2
        next_output_time := t
        is_exhausted := if t.isNone then true else w.is_exhausted },
      ws)
  | (.err e, sf, it2, ws) =>
    (.err e,
      { w with save_first_timestep := sf, times_iter := some it2 },
      ws)

/-- `GenericOutputWriter.advance_iter`.  Returns the outcome, the writer
state after the call (unchanged when an `assert` fails before any mutation),
and the skip warnings the call emitted. -/
def advance_iter (w : GenericOutputWriter) :
    AdvOutcome × GenericOutputWriter × List SkipWarning :=
  match w.times_iter with
  | none =>
    -- assert self._times_iter is not None fails
    (.err (.assertionError "An output time iterator has not been registered!."),
      w, [])
  | some it =>
    if w.is_exhausted then
      -- already exhausted: assert _next_output_time == None, return None
      match w.next_output_time with
      | none => (.ok none, w, [])
      | some _ =>
        (.err (.assertionError "self._next_output_time == None"), w, [])
    else
      match w.next_output_time with
      | some t =>
        if w.clock.stop < t then
          -- assert self._next_output_time <= model_stop_time fails
          (.err (.assertionError
              "self._next_output_time <= model_stop_time"), w, [])
        else
          -- had_next: commit the pending time as the previous time
          let w1 := { w with prev_output_time := some t }
          if t = w.clock.stop then
            -- previous time was the stop time: terminate without
            -- consulting the iterator
            (.ok none,
              { w1 with is_exhausted := true, next_output_time := none }, [])
          else
            advance_iter_tail w1 it
      | none =>
        advance_iter_tail w it

/-- `GenericOutputWriter.is_file_registered`. -/
def is_file_registered (w : GenericOutputWriter) (filepath : String) : Bool :=
  w.output_filepaths.contains filepath

/-- `GenericOutputWriter.register_output_filepath`. -/
def register_output_filepath (w : GenericOutputWriter) (filepath : String) :
    GenericOutputWriter :=
  if is_file_registered w filepath then w
  else { w with output_filepaths := w.output_filepaths ++ [filepath] }

/-- Run `advance_iter` `n` times, collecting each call's outcome and emitted
warnings together with the final writer state. -/
def run_advance : GenericOutputWriter → Nat →
    List (AdvOutcome × List SkipWarning) × GenericOutputWriter
  | w, 0 => ([], w)
  | w, Nat.succ n =>
    let r := advance_iter w
    let rest := run_advance r.2.1 n
    ((r.1, r.2.2) :: rest.1, rest.2)

/-- Claim C6: with source `[1.0, 2.0, 1.5, 5.0]`, `stop_time = 10.0` and both
save flags false, successive `advance_iter` calls return `1.0`, `2.0`, `5.0`
and then exhaust; the out-of-order `1.5` is skipped with exactly one
warning, carrying the skipped time `1.5` and the previous time `2.0`. -/
theorem c6_skip_tolerance :
    (run_advance (register_times_iter (newWriter ⟨10⟩ false false)
      [.float 1, .float 2, .float (mkRat 3 2), .float 5]) 4).1 =
    [(.ok (some 1), []), (.ok (some 2), []),
     (.ok (some 5), [⟨mkRat 3 2, 2⟩]), (.ok none, [])] := by decide

/-- Claim C1 (counterexample): for a scheduler whose source yields
`[1.0, 0.9, 0.8, 0.7, 0.6, 0.5]`, the second `advance_iter` call does NOT
raise a fatal error: all five regressions fit inside the skip budget
(`recursion_counter` values 5 down to 1), after which the iterator is
exhausted, so the call returns normally — the stop time `10.0` when
`save_last_timestep` is true, `None` when it is false — with five skip
warnings, refuting the claimed `RecursionError`. -/
theorem c1_counterexample :
    (run_advance (register_times_iter (newWriter ⟨10⟩ false true)
      [.float 1, .float (mkRat 9 10), .float (mkRat 8 10), .float (mkRat 7 10),
       .float (mkRat 6 10), .float (mkRat 5 10)]) 2).1 =
    [(.ok (some 1), []),
     (.ok (some 10),
      [⟨mkRat 9 10, 1⟩, ⟨mkRat 8 10, 1⟩, ⟨mkRat 7 10, 1⟩,
       ⟨mkRat 6 10, 1⟩, ⟨mkRat 5 10, 1⟩])] ∧
    (run_advance (register_times_iter (newWriter ⟨10⟩ false false)
      [.float 1, .float (mkRat 9 10), .float (mkRat 8 10), .float (mkRat 7 10),
       .float (mkRat 6 10), .float (mkRat 5 10)]) 2).1 =
    [(.ok (some 1), []),
     (.ok none,
      [⟨mkRat 9 10, 1⟩, ⟨mkRat 8 10, 1⟩, ⟨mkRat 7 10, 1⟩,
       ⟨mkRat 6 10, 1⟩, ⟨mkRat 5 10, 1⟩])] := by
  constructor <;> decide

/-- Claim C1 (amended): five consecutive regressions after the first
accepted value exhaust the retry budget but are all skipped, so the second
`advance_iter` call on `[1.0, 0.9, 0.8, 0.7, 0.6, 0.5]` returns normally
(the stop time, under `save_last_timestep`) with five skip warnings; it
takes a sixth consecutive regression — e.g. the source
`[1.0, 0.9, 0.8, 0.7, 0.6, 0.5, 0.4]` — for the second call to raise the
fatal `RecursionError` instead of returning a value. -/
theorem c1_amended :
    (run_advance (register_times_iter (newWriter ⟨10⟩ false true)
      [.float 1, .float (mkRat 9 10), .float (mkRat 8 10), .float (mkRat 7 10),
       .float (mkRat 6 10), .float (mkRat 5 10)]) 2).1 =
    [(.ok (some 1), []),
     (.ok (some 10),
      [⟨mkRat 9 10, 1⟩, ⟨mkRat 8 10, 1⟩, ⟨mkRat 7 10, 1⟩,
       ⟨mkRat 6 10, 1⟩, ⟨mkRat 5 10, 1⟩])] ∧
    (run_advance (register_times_iter (newWriter ⟨10⟩ false true)
      [.float 1, .float (mkRat 9 10), .float (mkRat 8 10), .float (mkRat 7 10),
       .float (mkRat 6 10), .float (mkRat 5 10), .float (mkRat 4 10)]) 2).1 =
    [(.ok (some 1), []),
     (.err (.recursionError "Too many output times skipped."),
      [⟨mkRat 9 10, 1⟩, ⟨mkRat 8 10, 1⟩, ⟨mkRat 7 10, 1⟩,
       ⟨mkRat 6 10, 1⟩, ⟨mkRat 5 10, 1⟩])] := by
  constructor <;> decide

/-- Claim C5: if `save_first_timestep` is true, the first `advance_iter`
call on a freshly constructed writer with a registered times source returns
exactly `0.0`, consumes the flag and stores the time, and does not pull
from the underlying source (the iterator field of the resulting state is
untouched), whatever the source `src`, the `save_last_timestep` flag and
the stop time are. -/
theorem c5_save_first_zero :
    ∀ (sl : Bool) (stop : ℚ) (src : List PyVal),
      advance_iter (register_times_iter (newWriter ⟨stop⟩ true sl) src) =
      (.ok (some 0),
       { register_times_iter (newWriter ⟨stop⟩ true sl) src with
         save_first_timestep := false
         next_output_time := some 0 }, []) := by
  intro sl stop src
  rfl

/-- Claim C9: `register_output_filepath` appends the exact string to the end
of the registry when `is_file_registered` is false, leaves the writer
entirely unchanged when it is true, is idempotent, and in either case the
path is registered afterwards. -/
theorem c9_filepath_registry :
    ∀ (w : GenericOutputWriter) (p : String),
      (is_file_registered w p = false →
        (register_output_filepath w p).output_filepaths =
          w.output_filepaths ++ [p]) ∧
      (is_file_registered w p = true → register_output_filepath w p = w) ∧
      register_output_filepath (register_output_filepath w p) p =
        register_output_filepath w p ∧
      is_file_registered (register_output_filepath w p) p = true := by
  intro w p
  have hmem : ∀ (l : List String), (l ++ [p]).contains p = true := by
    intro l
    simp
  have hreg : is_file_registered (register_output_filepath w p) p = true := by
    rcases hc : is_file_registered w p with _ | _
    · have h1 : (register_output_filepath w p).output_filepaths =
          w.output_filepaths ++ [p] := by
        simp [register_output_filepath, hc]
      simp [is_file_registered, h1, hmem]
    · have h1 : register_output_filepath w p = w := by
        simp [register_output_filepath, hc]
      rw [h1]
      exact hc
  refine ⟨fun h => ?_, fun h => ?_, ?_, hreg⟩
  · simp [register_output_filepath, h]
  · simp [register_output_filepath, h]
  · generalize hv : register_output_filepath w p = v at hreg ⊢
    simp [register_output_filepath, hreg]

/-- Claim C9 (witness): concrete instantiation on an empty registry and the
path "out.nc". -/
theorem c9_witness :
    (register_output_filepath (newWriter ⟨10⟩ false true)
        "out.nc").output_filepaths = [] ++ ["out.nc"] ∧
    register_output_filepath
        (register_output_filepath (newWriter ⟨10⟩ false true) "out.nc")
        "out.nc" =
      register_output_filepath (newWriter ⟨10⟩ false true) "out.nc" ∧
    is_file_registered
        (register_output_filepath (newWriter ⟨10⟩ false true) "out.nc")
        "out.nc" = true := by
  have h := c9_filepath_registry (newWriter ⟨10⟩ false true) "out.nc"
  exact ⟨h.1 (by decide), h.2.2.1, h.2.2.2⟩

/-- Claim C3: whenever the resolution algorithm finds the source exhausted
or pulls a value strictly above the stop time, it resolves to the stop time
exactly when `save_last_timestep` is true and the previous output time is
undefined or strictly below the stop time, and to `None` otherwise (the
`forced_final` rule, whose two characterizations are stated as
biconditionals); concretely, with source `[100.0]` and `stop_time = 10.0`
the scheduler yields `[10.0]` then exhausts under `save_last_timestep`, and
yields nothing (immediate exhaustion) without it. -/
theorem c3_forced_final :
    (∀ (sl : Bool) (prev : Option ℚ) (stop : ℚ) (c : Nat),
      advance_iter_recursive sl prev stop false [] c =
        (.ok (forced_final sl prev stop), false, [], [])) ∧
    (∀ (sl : Bool) (prev : Option ℚ) (stop v : ℚ) (rest : List PyVal)
        (c : Nat), stop < v →
      advance_iter_recursive sl prev stop false (.float v :: rest) c =
        (.ok (forced_final sl prev stop), false, rest, [])) ∧
    (∀ (sl : Bool) (prev : Option ℚ) (stop : ℚ),
      forced_final sl prev stop = some stop ↔
        sl = true ∧ (prev = none ∨ ∃ p, prev = some p ∧ p < stop)) ∧
    (∀ (sl : Bool) (prev : Option ℚ) (stop : ℚ),
      forced_final sl prev stop = none ↔
        ¬(sl = true ∧ (prev = none ∨ ∃ p, prev = some p ∧ p < stop))) ∧
    (run_advance (register_times_iter (newWriter ⟨10⟩ false true)
        [.float 100]) 3).1 =
      [(.ok (some 10), []), (.ok none, []), (.ok none, [])] ∧
    (run_advance (register_times_iter (newWriter ⟨10⟩ false false)
        [.float 100]) 2).1 =
      [(.ok none, []), (.ok none, [])] := by
  refine ⟨?_, ?_, ?_, ?_, by decide, by decide⟩
  · intro sl prev stop c
    cases c <;> rfl
  · intro sl prev stop v rest c h
    rw [advance_iter_recursive.eq_def]
    simp [h]
  · intro sl prev stop
    cases sl <;> rcases prev with _ | p <;>
      simp [forced_final]
  · intro sl prev stop
    cases sl <;> rcases prev with _ | p <;>
      simp [forced_final]

/-- Claim C3 (witness): the overshoot branch at the concrete input
`stop = 10`, pulled value `100`, empty previous time, with
`save_last_timestep` true. -/
theorem c3_witness :
    (10 : ℚ) < 100 ∧
    advance_iter_recursive true none 10 false [.float 100] 5 =
      (.ok (some 10), false, [], []) := by
  refine ⟨by norm_num, ?_⟩
  have h := c3_forced_final.2.1 true none 10 100 [] 5 (by norm_num)
  rw [h]
  decide

/-- Claim C8: calling `advance_iter` before a times source is registered
fails with the registration `AssertionError` and leaves the writer state
entirely unchanged; a non-float source value makes the resolution algorithm
fail with the float-contract `AssertionError` (consuming only the offending
value); both are `AssertionError`s, a different constructor from the
`RecursionError` used for the runtime skip-budget failure. -/
theorem c8_usage_errors :
    (∀ w : GenericOutputWriter, w.times_iter = none →
      advance_iter w =
        (.err (.assertionError
          "An output time iterator has not been registered!."), w, [])) ∧
    (∀ (sl : Bool) (prev : Option ℚ) (stop : ℚ) (rest : List PyVal)
        (c : Nat),
      advance_iter_recursive sl prev stop false (.nonFloat :: rest) c =
        (.err (.assertionError
          "The output time iterator needs to generate float values."),
         false, rest, [])) ∧
    (∀ m₁ m₂ : String,
      PyError.assertionError m₁ ≠ PyError.recursionError m₂) := by
  refine ⟨?_, ?_, ?_⟩
  · intro w h
    simp [advance_iter, h]
  · intro sl prev stop rest c
    cases c <;> rfl
  · intro m₁ m₂ h
    exact PyError.noConfusion h

/-- Claim C8 (witness): the unregistered writer with stop time `10`, and a
source whose head is a non-float value. -/
theorem c8_witness :
    advance_iter (newWriter ⟨10⟩ false true) =
      (.err (.assertionError
        "An output time iterator has not been registered!."),
       newWriter ⟨10⟩ false true, []) ∧
    advance_iter_recursive true none 10 false [.nonFloat] 5 =
      (.err (.assertionError
        "The output time iterator needs to generate float values."),
       false, [], []) ∧
    PyError.assertionError "An output time iterator has not been registered!."
      ≠ PyError.recursionError "Too many output times skipped." :=
  ⟨c8_usage_errors.1 (newWriter ⟨10⟩ false true) (by decide),
   c8_usage_errors.2.1 true none 10 [] 5,
   c8_usage_errors.2.2 _ _⟩

/-- A successful `advance_iter_tail` call is exactly a successful
`_advance_iter_recursive` call with budget 5 plus the state bookkeeping of
lines 217-223. -/
lemma advance_iter_tail_ok (w : GenericOutputWriter) (it : List PyVal)
    (r : Option ℚ) (w' : GenericOutputWriter) (ws : List SkipWarning)
    (h : advance_iter_tail w it = (.ok r, w', ws)) :
    ∃ sf it2,
      advance_iter_recursive w.save_last_timestep w.prev_output_time
        w.clock.stop w.save_first_timestep it 5 = (.ok r, sf, it2, ws) ∧
      w' = { w with
             save_first_timestep := sf
             times_iter := some it2
             next_output_time := r
             is_exhausted := if r.isNone then true else w.is_exhausted } := by
  simp only [advance_iter_tail] at h
  split at h
  next t sf it2 ws' heq =>
    simp only [Prod.mk.injEq] at h
    obtain ⟨h1, h2, h3⟩ := h
    injection h1 with h1
    subst h1 h2 h3
    exact ⟨sf, it2, heq, rfl⟩
  next e sf it2 ws' heq =>
    simp at h

/-- State bookkeeping guaranteed by any successful `advance_iter` call: the
returned value is stored in `next_output_time`, the clock and registration
are untouched, and `is_exhausted` records exactly whether the returned
value was `None` (given that it was false before a value-returning call). -/
lemma advance_ok_state (w w' : GenericOutputWriter) (r : Option ℚ)
    (ws : List SkipWarning) (h : advance_iter w = (.ok r, w', ws)) :
    w'.next_output_time = r ∧ w'.clock = w.clock ∧
    (∃ it2, w'.times_iter = some it2) ∧
    (∀ t, r = some t → w'.is_exhausted = false) ∧
    (r = none → w'.is_exhausted = true) := by
  simp only [advance_iter] at h
  split at h
  next hit => simp at h
  next it hit =>
    split at h
    next hex =>
      split at h
      next hnone =>
        simp only [Prod.mk.injEq] at h
        obtain ⟨h1, h2, h3⟩ := h
        injection h1 with h1
        subst h1 h2
        exact ⟨hnone, rfl, ⟨it, hit⟩,
          fun t ht => absurd ht (by simp), fun _ => hex⟩
      next => simp at h
    next hex =>
      split at h
      next t0 hnext =>
        split at h
        next => simp at h
        next hnlt =>
          split at h
          next heq =>
            simp only [Prod.mk.injEq] at h
            obtain ⟨h1, h2, h3⟩ := h
            injection h1 with h1
            subst h1 h2
            exact ⟨rfl, rfl, ⟨it, hit⟩,
              fun t ht => absurd ht (by simp), fun _ => rfl⟩
          next hneq =>
            obtain ⟨sf, it2, hrec, hw'⟩ :=
              advance_iter_tail_ok _ _ _ _ _ h
            subst hw'
            refine ⟨rfl, rfl, ⟨it2, rfl⟩, fun t ht => ?_, fun ht => ?_⟩
            · subst ht
              simpa using hex
            · subst ht
              rfl
      next hnext =>
        obtain ⟨sf, it2, hrec, hw'⟩ := advance_iter_tail_ok _ _ _ _ _ h
        subst hw'
        refine ⟨rfl, rfl, ⟨it2, rfl⟩, fun t ht => ?_, fun ht => ?_⟩
        · subst ht
          simpa using hex
        · subst ht
          rfl

/-- Claim C4: if an `advance_iter` call returns a value equal to the stop
time, the next call returns `None` without pulling from the underlying
source at all — the resulting state differs from the input state only in
the three bookkeeping fields (`times_iter` in particular is untouched), so
the stop time is emitted at most once and never re-emitted via the
forced-final-output path. -/
theorem c4_no_double_stop :
    ∀ (w w' : GenericOutputWriter) (ws : List SkipWarning) (t : ℚ),
      advance_iter w = (.ok (some t), w', ws) → t = w.clock.stop →
      advance_iter w' =
        (.ok none,
         { w' with
           prev_output_time := some t
           next_output_time := none
           is_exhausted := true }, []) := by
  intro w w' ws t h hstop
  obtain ⟨hnext, hclock, ⟨it2, hit⟩, hsome, _⟩ := advance_ok_state w w' _ _ h
  have hex : w'.is_exhausted = false := hsome t rfl
  have hs : w'.clock.stop = t := by rw [hclock, ← hstop]
  simp [advance_iter, hit, hex, hnext, hs, lt_irrefl]

/-- Claim C4 (witness): source `[10.0]` with stop time `10.0`; the first
call returns the stop time pulled from the source, the second call
terminates without touching the iterator. -/
theorem c4_witness :
    advance_iter ((advance_iter (register_times_iter
        (newWriter ⟨10⟩ false true) [.float 10])).2.1) =
      (.ok none,
       { (advance_iter (register_times_iter
            (newWriter ⟨10⟩ false true) [.float 10])).2.1 with
         prev_output_time := some 10
         next_output_time := none
         is_exhausted := true }, []) :=
  c4_no_double_stop
    (register_times_iter (newWriter ⟨10⟩ false true) [.float 10])
    ((advance_iter (register_times_iter
        (newWriter ⟨10⟩ false true) [.float 10])).2.1)
    ((advance_iter (register_times_iter
        (newWriter ⟨10⟩ false true) [.float 10])).2.2)
    10 (by decide) (by decide)

/-- An `advance_iter` call that returned `None` leaves the writer in a
state on which `advance_iter` is a no-op returning `None` again. -/
lemma advance_ok_none_fixpoint (w w' : GenericOutputWriter)
    (ws : List SkipWarning) (h : advance_iter w = (.ok none, w', ws)) :
    advance_iter w' = (.ok none, w', []) := by
  obtain ⟨hnext, _, ⟨it2, hit⟩, _, hexh⟩ := advance_ok_state w w' none ws h
  have hex : w'.is_exhausted = true := hexh rfl
  simp [advance_iter, hit, hex, hnext]

/-- Claim C7: once an `advance_iter` call returns `None`, every subsequent
call returns `None` immediately, emits no warnings, raises no error, and
leaves the writer state (in particular `prev_output_time`,
`next_output_time` and `is_exhausted`) completely unchanged, for any number
of further calls. -/
theorem c7_exhaustion_idempotent :
    ∀ (w w' : GenericOutputWriter) (ws : List SkipWarning),
      advance_iter w = (.ok none, w', ws) →
      ∀ n : Nat,
        run_advance w' n = (List.replicate n (.ok none, []), w') := by
  intro w w' ws h n
  have hfix := advance_ok_none_fixpoint w w' ws h
  induction n with
  | zero => rfl
  | succ n ih =>
    have hstep : run_advance w' (Nat.succ n) =
        (((advance_iter w').1, (advance_iter w').2.2) ::
          (run_advance (advance_iter w').2.1 n).1,
         (run_advance (advance_iter w').2.1 n).2) := rfl
    rw [hstep, hfix]
    simp [ih, List.replicate_succ]

/-- Claim C7 (witness): a writer exhausted by its first call (empty source,
`save_last_timestep` false) stays on `None` for three further calls with an
unchanged state. -/
theorem c7_witness :
    run_advance ((advance_iter (register_times_iter
        (newWriter ⟨10⟩ false false) [])).2.1) 3 =
      (List.replicate 3 (.ok none, []),
       (advance_iter (register_times_iter
          (newWriter ⟨10⟩ false false) [])).2.1) :=
  c7_exhaustion_idempotent
    (register_times_iter (newWriter ⟨10⟩ false false) [])
    ((advance_iter (register_times_iter
        (newWriter ⟨10⟩ false false) [])).2.1)
    ((advance_iter (register_times_iter
        (newWriter ⟨10⟩ false false) [])).2.2)
    (by decide) 3

/-- Claim C10: when `save_first_timestep` is true and the source's first
natural value is also `0.0` (and the stop time is positive), `0.0` is
emitted exactly once: the first call returns `0.0` from the flag without
pulling the source (the stored iterator still holds the leading `0.0`), and
the second call pulls that `0.0` and skips it silently — its outcome and
its warnings are exactly those of resolving the remaining source with
budget 4, with no warning contributed by the zero/zero skip — as the
concrete run on `[0.0, 3.0]` (returning `0.0` then `3.0` with no warnings
at all) illustrates. -/
theorem c10_zero_first :
    ∀ (sl : Bool) (stop : ℚ) (rest : List PyVal), 0 < stop →
      (advance_iter (register_times_iter (newWriter ⟨stop⟩ true sl)
          (.float 0 :: rest)) =
        (.ok (some 0),
         { register_times_iter (newWriter ⟨stop⟩ true sl)
            (.float 0 :: rest) with
           save_first_timestep := false
           next_output_time := some 0 }, [])) ∧
      ((advance_iter
          { clock := ⟨stop⟩
            save_first_timestep := false
            save_last_timestep := sl
            times_iter := some (.float 0 :: rest)
            next_output_time := some 0
            prev_output_time := none
            is_exhausted := false
            output_filepaths := [] }).1 =
        (advance_iter_recursive sl (some 0) stop false rest 4).1) ∧
      ((advance_iter
          { clock := ⟨stop⟩
            save_first_timestep := false
            save_last_timestep := sl
            times_iter := some (.float 0 :: rest)
            next_output_time := some 0
            prev_output_time := none
            is_exhausted := false
            output_filepaths := [] }).2.2 =
        (advance_iter_recursive sl (some 0) stop false rest 4).2.2.2) ∧
      (run_advance (register_times_iter (newWriter ⟨10⟩ true true)
          [.float 0, .float 3]) 2).1 =
        [(.ok (some 0), []), (.ok (some 3), [])] := by
  intro sl stop rest h0
  have hnlt : ¬ stop < (0 : ℚ) := asymm h0
  have hne : ¬ ((0 : ℚ) = stop) := ne_of_lt h0
  have hrec5 :
      advance_iter_recursive sl (some 0) stop false (.float 0 :: rest) 5 =
        (let r := advance_iter_recursive sl (some 0) stop false rest 4
         (r.1, r.2.1, r.2.2.1, r.2.2.2)) := by
    rw [advance_iter_recursive.eq_def]
    simp [hnlt]
  refine ⟨rfl, ?_, ?_, by decide⟩ <;>
  · simp only [advance_iter, advance_iter_tail]
    simp only [hnlt, hne, if_false, ite_false]
    rw [hrec5]
    rcases hr : advance_iter_recursive sl (some 0) stop false rest 4 with
      ⟨o, sf2, it2, ws2⟩
    cases o <;> simp

/-- The scheduler state invariant maintained by `advance_iter`: an
exhausted writer has no pending time; while `save_first_timestep` is
pending neither tracker is set; the previous output time never exceeds the
stop time; and a pending time is at most the stop time and strictly above
the previous output time. -/
def SchedInv (w : GenericOutputWriter) : Prop :=
  (w.is_exhausted = true → w.next_output_time = none) ∧
  (w.save_first_timestep = true →
    w.prev_output_time = none ∧ w.next_output_time = none) ∧
  (∀ p, w.prev_output_time = some p → p ≤ w.clock.stop) ∧
  (∀ t, w.next_output_time = some t →
    t ≤ w.clock.stop ∧ ∀ p, w.prev_output_time = some p → p < t)

/-- With the first-timestep flag pending, the resolution algorithm returns
`0.0` and clears the flag without touching the iterator. -/
lemma rec_sf_true (sl : Bool) (prev : Option ℚ) (stop : ℚ)
    (it : List PyVal) (c : Nat) :
    advance_iter_recursive sl prev stop true it c =
      (.ok (some 0), false, it, []) := by
  cases c <;> rfl

/-- The resolution algorithm always leaves the first-timestep flag
cleared. -/
lemma rec_sf_false (sl : Bool) (prev : Option ℚ) (stop : ℚ) :
    ∀ (c : Nat) (it : List PyVal),
      (advance_iter_recursive sl prev stop false it c).2.1 = false := by
  intro c
  induction c with
  | zero =>
    intro it
    rw [advance_iter_recursive.eq_def]
    rcases it with _ | ⟨_ | q, rest⟩
    · rfl
    · rcases prev with _ | p <;> simp <;> split_ifs <;> rfl
    · rfl
  | succ n ih =>
    intro it
    rw [advance_iter_recursive.eq_def]
    rcases it with _ | ⟨_ | q, rest⟩
    · rfl
    · rcases prev with _ | p <;> simp <;> split_ifs <;>
        first
        | rfl
        | exact ih rest
    · rfl

/-- Characterization of a non-`None` forced-final result. -/
lemma forced_final_some (sl : Bool) (prev : Option ℚ) (stop t : ℚ)
    (h : forced_final sl prev stop = some t) :
    t = stop ∧ ∀ p, prev = some p → p < stop := by
  cases sl
  · simp [forced_final] at h
  · rcases prev with _ | p
    · simp [forced_final] at h
      exact ⟨h.symm, by simp⟩
    · by_cases hp : p < stop
      · simp [forced_final, hp] at h
        refine ⟨h.symm, fun q hq => ?_⟩
        injection hq with hq
        rw [← hq]
        exact hp
      · simp [forced_final, hp] at h

/-- Unfolding: the resolution algorithm on an exhausted iterator. -/
lemma rec_nil (sl : Bool) (prev : Option ℚ) (stop : ℚ) (c : Nat) :
    advance_iter_recursive sl prev stop false [] c =
      (.ok (forced_final sl prev stop), false, [], []) := by
  cases c <;> rfl

/-- Unfolding: the resolution algorithm on a non-float head value. -/
lemma rec_nonfloat (sl : Bool) (prev : Option ℚ) (stop : ℚ)
    (rest : List PyVal) (c : Nat) :
    advance_iter_recursive sl prev stop false (.nonFloat :: rest) c =
      (.err (.assertionError
        "The output time iterator needs to generate float values."),
       false, rest, []) := by
  cases c <;> rfl

/-- Unfolding: the resolution algorithm on a head value above the stop
time. -/
lemma rec_overshoot (sl : Bool) (prev : Option ℚ) (stop v : ℚ)
    (rest : List PyVal) (c : Nat) (h : stop < v) :
    advance_iter_recursive sl prev stop false (.float v :: rest) c =
      (.ok (forced_final sl prev stop), false, rest, []) := by
  cases c <;> (rw [advance_iter_recursive.eq_def]; simp [h])

/-- Unfolding: an in-range head value with no previous output time is
accepted. -/
lemma rec_accept_none (sl : Bool) (stop v : ℚ) (rest : List PyVal)
    (c : Nat) (h : ¬ stop < v) :
    advance_iter_recursive sl none stop false (.float v :: rest) c =
      (.ok (some v), false, rest, []) := by
  cases c <;> (rw [advance_iter_recursive.eq_def]; simp [h])

/-- Unfolding: an in-range head value strictly above the previous output
time is accepted. -/
lemma rec_accept_some (sl : Bool) (stop v p : ℚ) (rest : List PyVal)
    (c : Nat) (h : ¬ stop < v) (hp : ¬ v ≤ p) :
    advance_iter_recursive sl (some p) stop false (.float v :: rest) c =
      (.ok (some v), false, rest, []) := by
  cases c <;> (rw [advance_iter_recursive.eq_def]; simp [h, hp])

/-- Unfolding: a skipped head value with remaining budget recurses on the
tail, prepending the skip warning unless both times are zero. -/
lemma rec_skip (sl : Bool) (stop v p : ℚ) (rest : List PyVal) (n : Nat)
    (h : ¬ stop < v) (hp : v ≤ p) :
    advance_iter_recursive sl (some p) stop false (.float v :: rest)
        (Nat.succ n) =
      ((advance_iter_recursive sl (some p) stop false rest n).1,
       (advance_iter_recursive sl (some p) stop false rest n).2.1,
       (advance_iter_recursive sl (some p) stop false rest n).2.2.1,
       (if p = 0 ∧ v = 0 then [] else [⟨v, p⟩]) ++
         (advance_iter_recursive sl (some p) stop false rest n).2.2.2) := by
  rw [advance_iter_recursive.eq_def]
  simp [h, hp]

/-- Unfolding: a skipped head value with no remaining budget raises the
`RecursionError`. -/
lemma rec_skip_exhausted (sl : Bool) (stop v p : ℚ) (rest : List PyVal)
    (h : ¬ stop < v) (hp : v ≤ p) :
    advance_iter_recursive sl (some p) stop false (.float v :: rest) 0 =
      (.err (.recursionError "Too many output times skipped."),
       false, rest, []) := by
  rw [advance_iter_recursive.eq_def]
  simp [h, hp]

/-- Any value accepted by the resolution algorithm (first-timestep flag
already cleared) is at most the stop time and strictly above the previous
output time. -/
lemma rec_ok_mono (sl : Bool) (stop : ℚ) :
    ∀ (c : Nat) (prev : Option ℚ) (it : List PyVal) (t : ℚ) (sf' : Bool)
      (it' : List PyVal) (ws : List SkipWarning),
      advance_iter_recursive sl prev stop false it c =
        (.ok (some t), sf', it', ws) →
      t ≤ stop ∧ ∀ p, prev = some p → p < t := by
  intro c
  induction c with
  | zero =>
    intro prev it t sf' it' ws h
    rcases it with _ | ⟨v, rest⟩
    · rw [rec_nil] at h
      simp only [Prod.mk.injEq] at h
      obtain ⟨h1, -, -, -⟩ := h
      injection h1 with h1
      obtain ⟨ht, hpp⟩ := forced_final_some sl prev stop t h1
      exact ⟨le_of_eq ht, fun p hq => ht ▸ hpp p hq⟩
    · cases v with
      | nonFloat =>
        rw [rec_nonfloat] at h
        simp at h
      | float q =>
        by_cases hlt : stop < q
        · rw [rec_overshoot sl prev stop q rest 0 hlt] at h
          simp only [Prod.mk.injEq] at h
          obtain ⟨h1, -, -, -⟩ := h
          injection h1 with h1
          obtain ⟨ht, hpp⟩ := forced_final_some sl prev stop t h1
          exact ⟨le_of_eq ht, fun p hq => ht ▸ hpp p hq⟩
        · rcases prev with _ | p
          · rw [rec_accept_none sl stop q rest 0 hlt] at h
            simp only [Prod.mk.injEq] at h
            obtain ⟨h1, -, -, -⟩ := h
            injection h1 with h1
            injection h1 with h1
            subst h1
            exact ⟨le_of_not_lt hlt, by simp⟩
          · by_cases hqp : q ≤ p
            · rw [rec_skip_exhausted sl stop q p rest hlt hqp] at h
              simp at h
            · rw [rec_accept_some sl stop q p rest 0 hlt hqp] at h
              simp only [Prod.mk.injEq] at h
              obtain ⟨h1, -, -, -⟩ := h
              injection h1 with h1
              injection h1 with h1
              subst h1
              refine ⟨le_of_not_lt hlt, fun p' hp' => ?_⟩
              injection hp' with hp'
              subst hp'
              exact lt_of_not_le hqp
  | succ n ih =>
    intro prev it t sf' it' ws h
    rcases it with _ | ⟨v, rest⟩
    · rw [rec_nil] at h
      simp only [Prod.mk.injEq] at h
      obtain ⟨h1, -, -, -⟩ := h
      injection h1 with h1
      obtain ⟨ht, hpp⟩ := forced_final_some sl prev stop t h1
      exact ⟨le_of_eq ht, fun p hq => ht ▸ hpp p hq⟩
    · cases v with
      | nonFloat =>
        rw [rec_nonfloat] at h
        simp at h
      | float q =>
        by_cases hlt : stop < q
        · rw [rec_overshoot sl prev stop q rest (Nat.succ n) hlt] at h
          simp only [Prod.mk.injEq] at h
          obtain ⟨h1, -, -, -⟩ := h
          injection h1 with h1
          obtain ⟨ht, hpp⟩ := forced_final_some sl prev stop t h1
          exact ⟨le_of_eq ht, fun p hq => ht ▸ hpp p hq⟩
        · rcases prev with _ | p
          · rw [rec_accept_none sl stop q rest (Nat.succ n) hlt] at h
            simp only [Prod.mk.injEq] at h
            obtain ⟨h1, -, -, -⟩ := h
            injection h1 with h1
            injection h1 with h1
            subst h1
            exact ⟨le_of_not_lt hlt, by simp⟩
          · by_cases hqp : q ≤ p
            · rw [rec_skip sl stop q p rest n hlt hqp] at h
              rcases hr : advance_iter_recursive sl (some p) stop false
                  rest n with ⟨o, sf2, it2, ws2⟩
              rw [hr] at h
              simp only [Prod.mk.injEq] at h
              obtain ⟨h1, -, -, -⟩ := h
              subst h1
              exact ih (some p) rest t sf2 it2 ws2 hr
            · rw [rec_accept_some sl stop q p rest (Nat.succ n) hlt hqp]
                at h
              simp only [Prod.mk.injEq] at h
              obtain ⟨h1, -, -, -⟩ := h
              injection h1 with h1
              injection h1 with h1
              subst h1
              refine ⟨le_of_not_lt hlt, fun p' hp' => ?_⟩
              injection hp' with hp'
              subst hp'
              exact lt_of_not_le hqp


/-- A successful `advance_iter` call on a state satisfying `SchedInv` (with
a nonnegative stop time) preserves the invariant, stores its return value,
keeps the clock, and returns a value strictly above the previously pending
one and at most the stop time. -/
lemma advance_preserves_inv :
    ∀ w : GenericOutputWriter, 0 ≤ w.clock.stop → SchedInv w →
      ∀ (r : Option ℚ) (w' : GenericOutputWriter) (ws : List SkipWarning),
        advance_iter w = (.ok r, w', ws) →
        SchedInv w' ∧ w'.next_output_time = r ∧ w'.clock = w.clock ∧
          ∀ t, r = some t →
            t ≤ w.clock.stop ∧ ∀ p, w.next_output_time = some p → p < t := by
  intro w h0 hInv r w' ws h
  obtain ⟨hInv1, hInv2, hInv3, hInv4⟩ := hInv
  simp only [advance_iter] at h
  split at h
  next hit => simp at h
  next it hit =>
    split at h
    next hex =>
      split at h
      next hnone =>
        simp only [Prod.mk.injEq] at h
        obtain ⟨h1, h2, h3⟩ := h
        injection h1 with h1
        subst h1 h2
        exact ⟨⟨hInv1, hInv2, hInv3, hInv4⟩, hnone, rfl,
          fun t ht => absurd ht (by simp)⟩
      next => simp at h
    next hex =>
      have hex' : w.is_exhausted = false := by
        simp only [Bool.not_eq_true] at hex
        exact hex
      split at h
      next t0 hnext =>
        have hsf : w.save_first_timestep = false := by
          rcases hb : w.save_first_timestep with _ | _
          · rfl
          · have hn := (hInv2 hb).2
            rw [hnext] at hn
            exact Option.noConfusion hn
        have ht0 := hInv4 t0 hnext
        split at h
        next => simp at h
        next hnlt =>
          split at h
          next heq =>
            simp only [Prod.mk.injEq] at h
            obtain ⟨h1, h2, h3⟩ := h
            injection h1 with h1
            subst h1 h2
            refine ⟨⟨fun _ => rfl, fun hb => absurd hb (by simp [hsf]),
              ?_, fun t htt => absurd htt (by simp)⟩,
              rfl, rfl, fun t ht => absurd ht (by simp)⟩
            intro p hp
            injection hp with hp
            subst hp
            exact ht0.1
          next hneq =>
            obtain ⟨sf, it2, hrec, hw'⟩ := advance_iter_tail_ok _ _ _ _ _ h
            dsimp only at hrec hw'
            rw [hsf] at hrec
            subst hw'
            have hsf2 : sf = false := by
              have h5 := rec_sf_false w.save_last_timestep (some t0)
                w.clock.stop 5 it
              rw [hrec] at h5
              simpa using h5
            rcases r with _ | t
            · refine ⟨⟨fun _ => rfl, fun hb => absurd hb (by simp [hsf2]),
                ?_, fun t htt => absurd htt (by simp)⟩,
                rfl, rfl, fun t ht => absurd ht (by simp)⟩
              intro p hp
              injection hp with hp
              subst hp
              exact ht0.1
            · obtain ⟨htle, htgt⟩ := rec_ok_mono w.save_last_timestep
                w.clock.stop 5 (some t0) it t sf it2 ws hrec
              have ht0t : t0 < t := htgt t0 rfl
              refine ⟨⟨?_, fun hb => absurd hb (by simp [hsf2]), ?_, ?_⟩,
                rfl, rfl, ?_⟩
              · intro hb
                have hb' : w.is_exhausted = true := hb
                rw [hex'] at hb'
                exact absurd hb' (by simp)
              · intro p hp
                injection hp with hp
                subst hp
                exact ht0.1
              · intro t' ht'
                injection ht' with ht'
                subst ht'
                refine ⟨htle, fun p hp => ?_⟩
                injection hp with hp
                subst hp
                exact ht0t
              · intro t' ht'
                injection ht' with ht'
                subst ht'
                refine ⟨htle, fun p hp => ?_⟩
                rw [hnext] at hp
                injection hp with hp
                subst hp
                exact ht0t
      next hnext =>
        obtain ⟨sf, it2, hrec, hw'⟩ := advance_iter_tail_ok _ _ _ _ _ h
        subst hw'
        rcases hb : w.save_first_timestep with _ | _
        · rw [hb] at hrec
          have hsf2 : sf = false := by
            have h5 := rec_sf_false w.save_last_timestep w.prev_output_time
              w.clock.stop 5 it
            rw [hrec] at h5
            simpa using h5
          rcases r with _ | t
          · refine ⟨⟨fun _ => rfl, fun hbb => absurd hbb (by simp [hsf2]),
              hInv3, fun t htt => absurd htt (by simp)⟩,
              rfl, rfl, fun t ht => absurd ht (by simp)⟩
          · obtain ⟨htle, htgt⟩ := rec_ok_mono w.save_last_timestep
              w.clock.stop 5 w.prev_output_time it t sf it2 ws hrec
            refine ⟨⟨?_, fun hbb => absurd hbb (by simp [hsf2]),
              hInv3, ?_⟩, rfl, rfl, ?_⟩
            · intro hbb
              have hbb' : w.is_exhausted = true := hbb
              rw [hex'] at hbb'
              exact absurd hbb' (by simp)
            · intro t' ht'
              injection ht' with ht'
              subst ht'
              exact ⟨htle, htgt⟩
            · intro t' ht'
              injection ht' with ht'
              subst ht'
              refine ⟨htle, fun p hp => ?_⟩
              rw [hnext] at hp
              exact absurd hp (by simp)
        · rw [hb] at hrec
          rw [rec_sf_true] at hrec
          simp only [Prod.mk.injEq] at hrec
          obtain ⟨h1, h2, h3, h4⟩ := hrec
          injection h1 with h1
          subst h1 h2
          have hprev : w.prev_output_time = none := (hInv2 hb).1
          refine ⟨⟨?_, fun hbb => absurd hbb (by simp), ?_, ?_⟩,
            rfl, rfl, ?_⟩
          · intro hbb
            have hbb' : w.is_exhausted = true := hbb
            rw [hex'] at hbb'
            exact absurd hbb' (by simp)
          · intro p hp
            have hp' : w.prev_output_time = some p := hp
            rw [hprev] at hp'
            exact absurd hp' (by simp)
          · intro t ht
            injection ht with ht
            subst ht
            refine ⟨h0, fun p hp => ?_⟩
            have hp' : w.prev_output_time = some p := hp
            rw [hprev] at hp'
            exact absurd hp' (by simp)
          · intro t ht
            injection ht with ht
            subst ht
            refine ⟨h0, fun p hp => ?_⟩
            rw [hnext] at hp
            exact absurd hp (by simp)

/-- Claim C2 (amended: the universally quantified invariant requires a
nonnegative stop time): every freshly registered scheduler satisfies
`SchedInv`, and — when the stop time is nonnegative — every successful
`advance_iter` call preserves `SchedInv`, stores exactly the returned value
in `next_output_time`, and any returned value is at most the stop time and
strictly greater than the previously pending value, so consecutive
non-`None` returns strictly increase (hence are non-decreasing with no
value returned twice) and `next_output_time` stays between
`prev_output_time` (strictly, covering the zero/zero allowance) and
`stop_time`. -/
theorem c2_amended_invariants :
    (∀ (cl : Clock) (sf sl : Bool) (src : List PyVal),
      SchedInv (register_times_iter (newWriter cl sf sl) src)) ∧
    (∀ w : GenericOutputWriter, 0 ≤ w.clock.stop → SchedInv w →
      ∀ (r : Option ℚ) (w' : GenericOutputWriter) (ws : List SkipWarning),
        advance_iter w = (.ok r, w', ws) →
        SchedInv w' ∧ w'.next_output_time = r ∧ w'.clock = w.clock ∧
          ∀ t, r = some t →
            t ≤ w.clock.stop ∧ ∀ p, w.next_output_time = some p → p < t) := by
  refine ⟨?_, advance_preserves_inv⟩
  intro cl sf sl src
  refine ⟨fun hx => ?_, fun _ => ⟨rfl, rfl⟩, fun p hp => ?_, fun t ht => ?_⟩
  · have hx' : (false : Bool) = true := hx
    exact absurd hx' (by simp)
  · have hp' : (none : Option ℚ) = some p := hp
    exact absurd hp' (by simp)
  · have ht' : (none : Option ℚ) = some t := ht
    exact absurd ht' (by simp)

/-- Claim C2 (witness): the invariant theorem applied to the freshly
registered writer with stop time `10` and source `[3.0]`, whose first
advance call returns `3.0`. -/
theorem c2_witness :
    SchedInv ((advance_iter (register_times_iter
        (newWriter ⟨10⟩ false true) [.float 3])).2.1) ∧
    ((advance_iter (register_times_iter
        (newWriter ⟨10⟩ false true) [.float 3])).2.1).next_output_time =
      some 3 ∧
    ((advance_iter (register_times_iter
        (newWriter ⟨10⟩ false true) [.float 3])).2.1).clock =
      (register_times_iter (newWriter ⟨10⟩ false true) [.float 3]).clock ∧
    (∀ t : ℚ, (some (3:ℚ)) = some t →
      t ≤ (register_times_iter
          (newWriter ⟨10⟩ false true) [.float 3]).clock.stop ∧
      ∀ p, (register_times_iter
          (newWriter ⟨10⟩ false true) [.float 3]).next_output_time =
        some p → p < t) :=
  c2_amended_invariants.2
    (register_times_iter (newWriter ⟨10⟩ false true) [.float 3])
    (by decide)
    (c2_amended_invariants.1 ⟨10⟩ false true [.float 3])
    (some 3)
    ((advance_iter (register_times_iter
        (newWriter ⟨10⟩ false true) [.float 3])).2.1)
    ((advance_iter (register_times_iter
        (newWriter ⟨10⟩ false true) [.float 3])).2.2)
    (by decide)

/-- Claim C2 (counterexample): with a negative stop time (`-1`) and
`save_first_timestep` true, the first `advance_iter` call succeeds (no
fatal error) yet stores `next_output_time = 0.0 > stop_time`, refuting the
claim that after every call `next_output_time` is at most `stop_time`. -/
theorem c2_counterexample :
    (advance_iter (register_times_iter (newWriter ⟨-1⟩ true true) [])).1 =
      .ok (some 0) ∧
    ((advance_iter (register_times_iter
        (newWriter ⟨-1⟩ true true) [])).2.1).next_output_time = some 0 ∧
    ((advance_iter (register_times_iter
        (newWriter ⟨-1⟩ true true) [])).2.1).clock.stop = -1 ∧
    ¬ ((0 : ℚ) ≤ -1) :=
  ⟨by decide, by decide, by decide, by decide⟩

/-- Claim C10 (witness): the concrete run with `stop = 10`,
source `[0.0, 3.0]` and both save flags true. -/
theorem c10_witness :
    (run_advance (register_times_iter (newWriter ⟨10⟩ true true)
        [.float 0, .float 3]) 2).1 =
      [(.ok (some 0), []), (.ok (some 3), [])] :=
  (c10_zero_first true 10 [.float 3] (by norm_num)).2.2.2
